import Mathlib

/-!
Verification of the posture-corrector program (src/main.cpp).

The program opens a webcam, and in an unbounded loop reads a frame, runs
edge detection and probabilistic line detection (external library calls),
classifies posture from the angle of the first detected line segment,
prints a message, and sleeps.  We shallow-embed the classifier over the
reals (the C code computes atan2 in floating point; the embedding uses
exact real arithmetic, which is what the specification speaks about), and
the control flow of main as a fuel-indexed run function over an abstract
frame stream.
-/

open Real

namespace PostureCorrector

/-- A detected line segment, mirroring cv::Vec4i as used by the code:
four integer coordinates x1, y1, x2, y2 (two endpoints). -/
structure Vec4i where
  x1 : Int
  y1 : Int
  x2 : Int
  y2 : Int
deriving DecidableEq, Repr

/-- Real-valued atan2, with the case analysis of the C library function
std::atan2(y, x): arctan(y/x) in the right half plane, shifted by pi in
the left half plane (sign following y), and the axis conventions
atan2(y, 0) = (sign y) * pi/2, atan2(0, 0) = 0. -/
noncomputable def atan2 (y x : ℝ) : ℝ :=
  if 0 < x then Real.arctan (y / x)
  else if x < 0 then
    (if 0 ≤ y then Real.arctan (y / x) + Real.pi else Real.arctan (y / x) - Real.pi)
  else
    (if 0 < y then Real.pi / 2 else if y < 0 then -(Real.pi / 2) else 0)

/-- The angle of a segment in degrees, as computed on line 35 of
src/main.cpp: std::atan2(l[3] - l[1], l[2] - l[0]) * 180 / CV_PI. -/
noncomputable def segAngleDeg (l : Vec4i) : ℝ :=
  atan2 ((l.y2 : ℝ) - (l.y1 : ℝ)) ((l.x2 : ℝ) - (l.x1 : ℝ)) * 180 / Real.pi

/-- The goodPosture flag computed on lines 32-37 of src/main.cpp: it is
initialised to false, and when the line list is non-empty it is set to
whether the absolute angle of the first segment is below 10 degrees. -/
def goodPosture (lines : List Vec4i) : Prop :=
  match lines with
  | [] => False
  | l :: _ => |segAngleDeg l| < 10

open Classical in
/-- The per-frame message printed on line 40 of src/main.cpp. -/
noncomputable def feedback (lines : List Vec4i) : String :=
  if goodPosture lines then "Good posture!" else "Straighten up!"

/-- The classifier with the array access made total: the lines.empty()
guard of line 33 of src/main.cpp is kept, and the lines[0] access of
line 35 is embedded as Option-returning indexing, the none branch
standing for the out-of-bounds access that the C code must not make. -/
def goodPostureChecked (lines : List Vec4i) : Option Prop :=
  if lines.isEmpty then some False
  else
    match lines[0]? with
    | some l => some (|segAngleDeg l| < 10)
    | none => none

/-- One captured frame, as seen by the loop body: whether frame.empty()
holds, and the line list that the fixed edge-detection and line-detection
chain (cvtColor, Canny, HoughLinesP — external library calls, lines 25-29
of src/main.cpp) produces from it. -/
structure Frame where
  isEmpty : Bool
  lines : List Vec4i

/-- The startup banner printed on line 13 of src/main.cpp. -/
def banner : String := "Posture Corrector running. Press \x27q\x27 to quit."

/-- The error line printed on line 9 of src/main.cpp when the webcam
cannot be opened. -/
def camErr : String := "Error: Could not open webcam."

/-- The error line printed on line 19 of src/main.cpp on an empty frame. -/
def emptyFrameErr : String := "Error: Empty frame."

/-- The while(true) loop of lines 15-47 of src/main.cpp, run for at most
fuel iterations starting at frame index i of the stream.  Returns the
list of stdout lines the loop printed and whether it terminated (broke
out on an empty frame) within the given fuel. -/
noncomputable def loopRun (stream : Nat → Frame) : Nat → Nat → List String × Bool
  | 0, _ => ([], false)
  | fuel + 1, i =>
    if (stream i).isEmpty then ([], true)
    else
      let p := loopRun stream fuel (i + 1)
      (feedback (stream i).lines :: p.1, p.2)

/-- Observable outcome of a (partial) run of main: stdout lines, stderr
lines, and the exit code (none while the loop is still running). -/
structure RunResult where
  stdout : List String
  stderr : List String
  exitCode : Option Int

/-- The main function of src/main.cpp, embedded over an abstract camera:
camOpened is the result of cap.isOpened() on line 8, stream yields the
frames that cap >> frame reads, and fuel bounds how many loop iterations
we observe.  Camera-open failure returns -1 after the stderr message;
otherwise the banner is printed and the loop runs; if the loop breaks on
an empty frame the function falls through to return 0 on line 50. -/
noncomputable def mainRun (camOpened : Bool) (stream : Nat → Frame) (fuel : Nat) : RunResult :=
  if camOpened then
    let p := loopRun stream fuel 0
    { stdout := banner :: p.1
      stderr := if p.2 then [emptyFrameErr] else []
      exitCode := if p.2 then some 0 else none }
  else
    { stdout := [], stderr := [camErr], exitCode := some (-1) }

/-! ### Helper lemmas about the angle computation -/

lemma pi_div_18_pos : 0 < Real.pi / 18 := by positivity

/-- Degrees versus radians: the absolute angle in degrees is below 10
exactly when the absolute angle in radians is below pi / 18. -/
lemma abs_deg_lt_ten_iff (a : ℝ) : |a * 180 / Real.pi| < 10 ↔ |a| < Real.pi / 18 := by
  have hπ : 0 < Real.pi := Real.pi_pos
  rw [abs_div, abs_mul, abs_of_pos hπ]
  have h180 : |(180 : ℝ)| = 180 := by norm_num
  rw [h180, div_lt_iff₀ hπ]
  constructor
  · intro h; linarith
  · intro h; linarith

lemma arctan_pos_of_pos {x : ℝ} (hx : 0 < x) : 0 < Real.arctan x := by
  have := Real.arctan_strictMono hx
  rwa [Real.arctan_zero] at this

lemma arctan_lt_self_of_pos {x : ℝ} (hx : 0 < x) : Real.arctan x < x := by
  have h1 : 0 < Real.arctan x := arctan_pos_of_pos hx
  have h2 := Real.lt_tan h1 (Real.arctan_lt_pi_div_two x)
  rwa [Real.tan_arctan] at h2

lemma tan_pi_div_18_lt : Real.tan (Real.pi / 18) < 18 / 100 := by
  set x : ℝ := Real.pi / 18 with hx
  have hπl : 3.141592 < Real.pi := Real.pi_gt_d6
  have hπu : Real.pi < 3.141593 := Real.pi_lt_d6
  have hx0 : 0 < x := pi_div_18_pos
  have hxu : x < 0.1745330 := by rw [hx]; linarith
  have hxhalf : x < Real.pi / 2 := by rw [hx]; linarith
  have hcos : 0 < Real.cos x :=
    Real.cos_pos_of_mem_Ioo ⟨by linarith, hxhalf⟩
  have hsin : Real.sin x < x := Real.sin_lt hx0
  have hcoslb : 1 - x ^ 2 / 2 < Real.cos x :=
    Real.one_sub_sq_div_two_lt_cos (ne_of_gt hx0)
  rw [Real.tan_eq_sin_div_cos, div_lt_iff₀ hcos]
  nlinarith [sq_nonneg x, sq_nonneg (x - 0.1745330)]

lemma pi_div_18_lt_arctan : Real.pi / 18 < Real.arctan (18 / 100) := by
  have hπ : 0 < Real.pi := Real.pi_pos
  have h1 : -(Real.pi / 2) < Real.pi / 18 := by linarith
  have h2 : Real.pi / 18 < Real.pi / 2 := by linarith
  calc Real.pi / 18 = Real.arctan (Real.tan (Real.pi / 18)) := (Real.arctan_tan h1 h2).symm
    _ < Real.arctan (18 / 100) := Real.arctan_strictMono tan_pi_div_18_lt

/-- For a positive x coordinate, atan2 is the plain arctangent. -/
lemma atan2_of_pos_x (y x : ℝ) (hx : 0 < x) : atan2 y x = Real.arctan (y / x) :=
  if_pos hx

/-- For a negative x and nonnegative y, atan2 is arctan shifted by pi. -/
lemma atan2_of_neg_x_nonneg_y (y x : ℝ) (hx : x < 0) (hy : 0 ≤ y) :
    atan2 y x = Real.arctan (y / x) + Real.pi := by
  rw [atan2, if_neg (by linarith), if_pos hx, if_pos hy]

lemma segAngleDeg_horizontal : segAngleDeg ⟨0, 0, 100, 0⟩ = 0 := by
  have h : atan2 ((0 : ℝ) - 0) ((100 : ℝ) - 0) = 0 := by
    rw [atan2_of_pos_x _ _ (by norm_num)]
    norm_num [Real.arctan_zero]
  simp only [segAngleDeg]
  norm_num at h ⊢
  rw [h]
  simp

lemma segAngleDeg_diag : segAngleDeg ⟨0, 0, 100, 100⟩ = 45 := by
  have h : atan2 ((100 : ℝ) - 0) ((100 : ℝ) - 0) = Real.pi / 4 := by
    rw [atan2_of_pos_x _ _ (by norm_num)]
    norm_num [Real.arctan_one]
  simp only [segAngleDeg]
  norm_num at h ⊢
  rw [h]
  field_simp
  ring

lemma seg_17_good : |segAngleDeg ⟨0, 0, 100, 17⟩| < 10 := by
  have hπl : 3.141592 < Real.pi := Real.pi_gt_d6
  have h : atan2 ((17 : ℝ) - 0) ((100 : ℝ) - 0) = Real.arctan (17 / 100) := by
    rw [atan2_of_pos_x _ _ (by norm_num)]
    norm_num
  simp only [segAngleDeg]
  norm_num at h ⊢
  rw [h, abs_deg_lt_ten_iff]
  have h1 : 0 < Real.arctan (17 / 100) := arctan_pos_of_pos (by norm_num)
  rw [abs_of_pos h1]
  have h2 : Real.arctan (17 / 100) < 17 / 100 := arctan_lt_self_of_pos (by norm_num)
  linarith

lemma seg_18_bad : ¬ |segAngleDeg ⟨0, 0, 100, 18⟩| < 10 := by
  have h : atan2 ((18 : ℝ) - 0) ((100 : ℝ) - 0) = Real.arctan (18 / 100) := by
    rw [atan2_of_pos_x _ _ (by norm_num)]
    norm_num
  simp only [segAngleDeg]
  norm_num at h ⊢
  rw [h, ← not_lt, abs_deg_lt_ten_iff, not_lt]
  have h1 : 0 < Real.arctan (9 / 50) := arctan_pos_of_pos (by norm_num)
  rw [abs_of_pos h1]
  have h2 := pi_div_18_lt_arctan
  norm_num at h2
  linarith

lemma seg_reversed_bad : ¬ |segAngleDeg ⟨100, 0, 0, 1⟩| < 10 := by
  have hπ : 0 < Real.pi := Real.pi_pos
  have h : atan2 ((1 : ℝ) - 0) ((0 : ℝ) - 100) = Real.arctan (1 / (-100)) + Real.pi := by
    rw [show (0 : ℝ) - 100 = -100 by norm_num, show (1 : ℝ) - 0 = 1 by norm_num]
    exact atan2_of_neg_x_nonneg_y 1 (-100) (by norm_num) (by norm_num)
  simp only [segAngleDeg]
  norm_num at h ⊢
  rw [h, ← not_lt, abs_deg_lt_ten_iff, not_lt]
  have h1 : Real.arctan (1 / 100) < Real.pi / 2 := Real.arctan_lt_pi_div_two _
  have h2 : -Real.arctan (1 / 100) + Real.pi > Real.pi / 2 := by linarith
  rw [abs_of_pos (by linarith)]
  linarith

lemma seg_reversed_good : |segAngleDeg ⟨0, 1, 100, 0⟩| < 10 := by
  have hπl : 3.141592 < Real.pi := Real.pi_gt_d6
  have h : atan2 ((0 : ℝ) - 1) ((100 : ℝ) - 0) = Real.arctan (-(1 / 100)) := by
    rw [atan2_of_pos_x _ _ (by norm_num)]
    norm_num
  simp only [segAngleDeg]
  norm_num at h ⊢
  rw [h, abs_deg_lt_ten_iff, abs_neg]
  have h1 : 0 < Real.arctan (1 / 100) := arctan_pos_of_pos (by norm_num)
  rw [abs_of_pos h1]
  have h2 : Real.arctan (1 / 100) < 1 / 100 := arctan_lt_self_of_pos (by norm_num)
  linarith

/-! ### Helper lemmas about the run model -/

/-- The per-frame feedback line is never the startup banner. -/
lemma feedback_ne_banner (l : List Vec4i) : feedback l ≠ banner := by
  rw [feedback, banner]
  split
  · intro h
    exact absurd h (by decide)
  · intro h
    exact absurd h (by decide)

/-- The loop terminates within its fuel exactly when the stream holds an
empty frame in the inspected window. -/
lemma loopRun_snd_iff (stream : Nat → Frame) (fuel i : Nat) :
    (loopRun stream fuel i).2 = true ↔
      ∃ k, i ≤ k ∧ k < i + fuel ∧ (stream k).isEmpty = true := by
  induction fuel generalizing i with
  | zero =>
    simp only [loopRun]
    constructor
    · intro h
      exact absurd h (by decide)
    · rintro ⟨k, h1, h2, _⟩
      omega
  | succ n ih =>
    rw [loopRun]
    by_cases h : (stream i).isEmpty = true
    · rw [if_pos h]
      exact ⟨fun _ => ⟨i, le_refl i, by omega, h⟩, fun _ => rfl⟩
    · rw [if_neg h]
      simp only []
      rw [ih (i + 1)]
      constructor
      · rintro ⟨k, h1, h2, h3⟩
        exact ⟨k, by omega, by omega, h3⟩
      · rintro ⟨k, h1, h2, h3⟩
        refine ⟨k, ?_, by omega, h3⟩
        rcases Nat.eq_or_lt_of_le h1 with rfl | hlt
        · exact absurd h3 h
        · omega

/-- The loop body never prints the startup banner. -/
lemma banner_not_mem_loopRun (stream : Nat → Frame) (fuel i : Nat) :
    banner ∉ (loopRun stream fuel i).1 := by
  induction fuel generalizing i with
  | zero =>
    simp [loopRun]
  | succ n ih =>
    rw [loopRun]
    by_cases h : (stream i).isEmpty = true
    · rw [if_pos h]
      simp
    · rw [if_neg h]
      intro hmem
      rcases List.mem_cons.mp hmem with heq | htail
      · exact feedback_ne_banner _ heq.symm
      · exact ih (i + 1) htail

/-! ### Claims -/

/-- C1: for every non-empty line list, the classifier takes the first
segment, computes its angle from horizontal as atan2(dy, dx) in degrees,
and prints "Good posture!" when the absolute angle is strictly below 10
degrees and "Straighten up!" otherwise. -/
theorem c1_classifier_first_segment (l : Vec4i) (rest : List Vec4i) :
    (goodPosture (l :: rest) ↔ |segAngleDeg l| < 10) ∧
    (|segAngleDeg l| < 10 → feedback (l :: rest) = "Good posture!") ∧
    (¬ |segAngleDeg l| < 10 → feedback (l :: rest) = "Straighten up!") := by
  have hg : goodPosture (l :: rest) ↔ |segAngleDeg l| < 10 := Iff.rfl
  refine ⟨hg, fun h => ?_, fun h => ?_⟩
  · unfold feedback
    rw [if_pos (hg.mpr h)]
  · unfold feedback
    rw [if_neg (fun hc => h (hg.mp hc))]

/-- Witness for C1 at the horizontal segment (0,0)-(100,0). -/
theorem c1_witness :
    goodPosture [⟨0, 0, 100, 0⟩] ∧ feedback [⟨0, 0, 100, 0⟩] = "Good posture!" := by
  have h : |segAngleDeg ⟨0, 0, 100, 0⟩| < 10 := by
    rw [segAngleDeg_horizontal]
    norm_num
  exact ⟨(c1_classifier_first_segment ⟨0, 0, 100, 0⟩ []).1.mpr h,
    (c1_classifier_first_segment ⟨0, 0, 100, 0⟩ []).2.1 h⟩

/-- C2: for an empty line list the goodPosture flag keeps its false
default, so the classifier reports "Straighten up!". -/
theorem c2_empty_needs_correction :
    ¬ goodPosture ([] : List Vec4i) ∧ feedback [] = "Straighten up!" := by
  constructor
  · intro h
    exact h
  · unfold feedback
    rw [if_neg (show ¬ goodPosture [] from fun h => h)]

/-- C3: concrete single-segment classifications: angle 0 and angle
about 9.65 degrees are good posture; angle 45 and angle about 10.2
degrees need correction. -/
theorem c3_boundary_cases :
    feedback [⟨0, 0, 100, 0⟩] = "Good posture!" ∧
    feedback [⟨0, 0, 100, 17⟩] = "Good posture!" ∧
    feedback [⟨0, 0, 100, 100⟩] = "Straighten up!" ∧
    feedback [⟨0, 0, 100, 18⟩] = "Straighten up!" := by
  have h0 : |segAngleDeg ⟨0, 0, 100, 0⟩| < 10 := by
    rw [segAngleDeg_horizontal]
    norm_num
  have h45 : ¬ |segAngleDeg ⟨0, 0, 100, 100⟩| < 10 := by
    rw [segAngleDeg_diag]
    norm_num
  refine ⟨?_, ?_, ?_, ?_⟩ <;> unfold feedback
  · rw [if_pos (show goodPosture [⟨0, 0, 100, 0⟩] from h0)]
  · rw [if_pos (show goodPosture [⟨0, 0, 100, 17⟩] from seg_17_good)]
  · rw [if_neg (show ¬ goodPosture [⟨0, 0, 100, 100⟩] from h45)]
  · rw [if_neg (show ¬ goodPosture [⟨0, 0, 100, 18⟩] from seg_18_bad)]

/-- C4: the classification of a non-empty list depends only on its first
segment: any segments after the first do not change the result. -/
theorem c4_only_first_segment (l : Vec4i) (rest rest2 : List Vec4i) :
    feedback (l :: rest) = feedback (l :: rest2) ∧
    (goodPosture (l :: rest) ↔ goodPosture (l :: rest2)) :=
  ⟨rfl, Iff.rfl⟩

/-- C5: the classifier is a deterministic pure function of the line list:
equal inputs give equal classifications and equal messages. -/
theorem c5_deterministic (lines lines2 : List Vec4i) (h : lines = lines2) :
    feedback lines = feedback lines2 ∧ (goodPosture lines ↔ goodPosture lines2) := by
  subst h
  exact ⟨rfl, Iff.rfl⟩

/-- Witness for C5 at the singleton horizontal segment. -/
theorem c5_witness :
    feedback [⟨0, 0, 100, 0⟩] = feedback [⟨0, 0, 100, 0⟩] :=
  (c5_deterministic [⟨0, 0, 100, 0⟩] [⟨0, 0, 100, 0⟩] rfl).1

/-- C6: camera-open failure exits with -1 after the stderr message; an
empty frame within the observed fuel terminates the loop and the run
exits with 0 after the stderr message; 0 and -1 are the only exit codes,
and -1 happens exactly on camera-open failure. -/
theorem c6_exit_codes (camOpened : Bool) (stream : Nat → Frame) (fuel : Nat) :
    (camOpened = false →
      mainRun camOpened stream fuel = ⟨[], [camErr], some (-1)⟩) ∧
    (∀ k, camOpened = true → k < fuel → (stream k).isEmpty = true →
      (mainRun camOpened stream fuel).exitCode = some 0 ∧
      (mainRun camOpened stream fuel).stderr = [emptyFrameErr]) ∧
    (∀ c, (mainRun camOpened stream fuel).exitCode = some c → c = 0 ∨ c = -1) ∧
    ((mainRun camOpened stream fuel).exitCode = some (-1) ↔ camOpened = false) := by
  cases camOpened with
  | false =>
    refine ⟨fun _ => by simp [mainRun], ?_, ?_, ?_⟩
    · intro k hk
      exact absurd hk (by decide)
    · intro c hc
      simp [mainRun] at hc
      right
      omega
    · simp [mainRun]
  | true =>
    refine ⟨fun h => absurd h (by decide), ?_, ?_, ?_⟩
    · intro k _ hk hkE
      have hterm : (loopRun stream fuel 0).2 = true :=
        (loopRun_snd_iff stream fuel 0).mpr ⟨k, Nat.zero_le k, by omega, hkE⟩
      constructor <;> simp [mainRun, hterm]
    · intro c hc
      cases ht : (loopRun stream fuel 0).2 with
      | true =>
        simp [mainRun, ht] at hc
        left
        omega
      | false =>
        simp [mainRun, ht] at hc
    · constructor
      · intro hc
        cases ht : (loopRun stream fuel 0).2 with
        | true => simp [mainRun, ht] at hc
        | false => simp [mainRun, ht] at hc
      · intro h
        exact absurd h (by decide)

/-- Witness for C6: with the camera closed, the run is exactly the error
outcome with exit code -1. -/
theorem c6_witness :
    mainRun false (fun _ => ⟨true, []⟩) 0 = ⟨[], [camErr], some (-1)⟩ :=
  (c6_exit_codes false (fun _ => ⟨true, []⟩) 0).1 rfl

/-- C7: when no frame of the stream is ever empty, the loop never
terminates within any fuel bound: the run has no exit code and writes
nothing to stderr; the commented-out q-key exit has no effect. -/
theorem c7_no_termination_without_empty_frame (stream : Nat → Frame)
    (h : ∀ i, (stream i).isEmpty = false) (fuel : Nat) :
    (mainRun true stream fuel).exitCode = none ∧
    (mainRun true stream fuel).stderr = [] := by
  have hterm : (loopRun stream fuel 0).2 = false := by
    rw [← Bool.not_eq_true, loopRun_snd_iff]
    rintro ⟨k, _, _, hk⟩
    rw [h k] at hk
    exact absurd hk (by decide)
  constructor <;> simp [mainRun, hterm]

/-- Witness for C7 on the constant stream of non-empty frames. -/
theorem c7_witness :
    (mainRun true (fun _ => ⟨false, []⟩) 2).exitCode = none :=
  (c7_no_termination_without_empty_frame (fun _ => ⟨false, []⟩) (fun _ => rfl) 2).1

/-- C8: the angle is the directed angle from the first endpoint to the
second: the near-horizontal segment listed as (100,0)-(0,1) has absolute
directed angle at least 10 degrees and is classified "Straighten up!",
while the same geometric segment listed as (0,1)-(100,0) is classified
"Good posture!". -/
theorem c8_directed_angle :
    10 ≤ |segAngleDeg ⟨100, 0, 0, 1⟩| ∧
    feedback [⟨100, 0, 0, 1⟩] = "Straighten up!" ∧
    feedback [⟨0, 1, 100, 0⟩] = "Good posture!" := by
  refine ⟨not_lt.mp seg_reversed_bad, ?_, ?_⟩
  · unfold feedback
    rw [if_neg (show ¬ goodPosture [⟨100, 0, 0, 1⟩] from seg_reversed_bad)]
  · unfold feedback
    rw [if_pos (show goodPosture [⟨0, 1, 100, 0⟩] from seg_reversed_good)]

/-- C9: the lines[0] access happens only under the non-emptiness guard:
in the Option-returning embedding the out-of-bounds branch is unreachable
for every input, and the checked classifier agrees with goodPosture. -/
theorem c9_index_guarded (lines : List Vec4i) :
    goodPostureChecked lines ≠ none ∧
    goodPostureChecked lines = some (goodPosture lines) := by
  cases lines with
  | nil =>
    constructor <;> simp [goodPostureChecked, goodPosture]
  | cons l rest =>
    constructor <;> simp [goodPostureChecked, goodPosture]

/-- C10: the startup banner appears on stdout exactly once when the
camera opens, and on camera-open failure stdout is empty and stderr holds
only the webcam error line. -/
theorem c10_banner_once (camOpened : Bool) (stream : Nat → Frame) (fuel : Nat) :
    (camOpened = true → (mainRun camOpened stream fuel).stdout.count banner = 1) ∧
    (camOpened = false → (mainRun camOpened stream fuel).stdout = [] ∧
      (mainRun camOpened stream fuel).stderr = [camErr]) := by
  constructor
  · intro h
    subst h
    have hnot := banner_not_mem_loopRun stream fuel 0
    have hzero : ((loopRun stream fuel 0).1).count banner = 0 :=
      List.count_eq_zero.mpr hnot
    simp [mainRun, List.count_cons_self, hzero]
  · intro h
    subst h
    constructor <;> simp [mainRun]

/-- Witness for C10 on a stream whose first frame is empty. -/
theorem c10_witness :
    (mainRun true (fun _ => ⟨true, []⟩) 1).stdout.count banner = 1 :=
  (c10_banner_once true (fun _ => ⟨true, []⟩) 1).1 rfl

end PostureCorrector
